import Mathlib

/-!
Verification of the numerology / compatibility / simplified-ephemeris core of
the repository.  All JavaScript number arithmetic is embedded over `ℚ` (the
values involved are decimal literals and exact divisions), JS integer
arithmetic over `ℕ`/`ℤ`.  JS `%` on numbers is truncated remainder
(sign of the dividend); `Math.floor` is `Int.floor`; `Math.round x` is
`⌊x + 1/2⌋`.  Recursion on decimal digits is implemented with structural
fuel so that every definition evaluates by kernel reduction (`decide`).
-/

namespace Numerology

/-- Decimal digits of a natural number (least-significant first), with
structural fuel; mirrors the JS idiom `n.toString().split('')` (the order of
digits is irrelevant everywhere the source uses them: sums and sets). -/
def digitsListFuel : ℕ → ℕ → List ℕ
  | 0, _ => []
  | f + 1, n => if n = 0 then [] else n % 10 :: digitsListFuel f (n / 10)

/-- Decimal digits of `n`, least-significant first. -/
def decimalDigits (n : ℕ) : List ℕ := digitsListFuel n n

/-- Sum of the decimal digits: the loop body
`num.toString().split('').reduce((sum, digit) => sum + parseInt(digit), 0)`
of `reduceToSingleDigit` in src/server/services/numerology.ts. -/
def digitSum (n : ℕ) : ℕ := (decimalDigits n).sum

/-- The `while (num > 9)` loop of `reduceToSingleDigit`: repeatedly replace
`num` by its digit sum, returning early when the intermediate value is a
master number and `keep` is set.  The fuel argument is only a structural
bound on the number of iterations (the value strictly decreases, so fuel
`num` always suffices). -/
def reduceLoopFuel : ℕ → ℕ → Bool → ℕ
  | 0, num, _ => num
  | f + 1, num, keep =>
    if 9 < num then
      let s := digitSum num
      if keep ∧ (s = 11 ∨ s = 22 ∨ s = 33) then s
      else reduceLoopFuel f s keep
    else num

/-- Embedding of `reduceToSingleDigit(num, keepMasterNumbers = true)` from
src/server/services/numerology.ts lines 22-34. -/
def reduceToSingleDigit (num : ℕ) (keepMasterNumbers : Bool := true) : ℕ :=
  if keepMasterNumbers ∧ (num = 11 ∨ num = 22 ∨ num = 33) then num
  else reduceLoopFuel num num keepMasterNumbers

/-- Pythagorean letter table from src/server/services/numerology.ts lines
14-18: A=1..I=9, J=1..R=9, S=1..Z=8; any other character maps to 0 (the
source's `letterValues[letter] || 0`). -/
def letterValue : Char → ℕ
  | 'A' => 1 | 'B' => 2 | 'C' => 3 | 'D' => 4 | 'E' => 5 | 'F' => 6
  | 'G' => 7 | 'H' => 8 | 'I' => 9
  | 'J' => 1 | 'K' => 2 | 'L' => 3 | 'M' => 4 | 'N' => 5 | 'O' => 6
  | 'P' => 7 | 'Q' => 8 | 'R' => 9
  | 'S' => 1 | 'T' => 2 | 'U' => 3 | 'V' => 4 | 'W' => 5 | 'X' => 6
  | 'Y' => 7 | 'Z' => 8
  | _ => 0

/-- The source's `name.toUpperCase().replace(/[^A-Z]/g, '')`, as a list of
characters. -/
def cleanLetters (name : String) : List Char :=
  (name.toList.map Char.toUpper).filter (fun c => decide ('A' ≤ c ∧ c ≤ 'Z'))

/-- Embedding of `calculateLifePathNumber` (lines 52-59). -/
def calculateLifePathNumber (day month year : ℕ) : ℕ :=
  let reducedDay := reduceToSingleDigit day
  let reducedMonth := reduceToSingleDigit month
  let reducedYear := reduceToSingleDigit year
  reduceToSingleDigit (reducedDay + reducedMonth + reducedYear)

/-- Embedding of `calculateBirthdayNumber` (lines 84-86). -/
def calculateBirthdayNumber (day : ℕ) : ℕ :=
  reduceToSingleDigit day

/-- Number of letters of `cs` whose Pythagorean value is `v`; the
`digitCounts` table of `getHiddenPassionNumber` (lines 176-200). -/
def letterValueCount (cs : List Char) (v : ℕ) : ℕ :=
  (cs.filter (fun c => letterValue c == v)).length

/-- Embedding of `getHiddenPassionNumber` (lines 176-200): the most frequent
letter value, scanning 1→9 and keeping the first digit that strictly
improves the running maximum (initial maximum 0, initial answer 1). -/
def getHiddenPassionNumber (name : String) : ℕ :=
  let clean := cleanLetters name
  ((List.range' 1 9).foldl
    (fun acc d =>
      if acc.1 < letterValueCount clean d then (letterValueCount clean d, d) else acc)
    (0, 1)).2

/-- Embedding of `getLoShuGridDigits` (lines 202-220): the set of digits 1-9
occurring in the decimal expansions of day, month and year, plus the driver
(birthday number) and conductor (life path number) when those lie in 1-9. -/
def getLoShuGridDigits (day month year : ℕ) : Finset ℕ :=
  let base :=
    ((decimalDigits day ++ decimalDigits month ++ decimalDigits year).filter
      (fun d => decide (1 ≤ d ∧ d ≤ 9))).toFinset
  let driver := calculateBirthdayNumber day
  let conductor := calculateLifePathNumber day month year
  let withDriver := if 1 ≤ driver ∧ driver ≤ 9 then insert driver base else base
  if 1 ≤ conductor ∧ conductor ≤ 9 then insert conductor withDriver else withDriver

/-- Input record of `calculateAdvancedCompatibility` (lines 238-241): a
`NumerologyCalculation` together with name and birth-date parts.  The
numerology numbers are JS numbers, embedded as `ℚ`; `loShuGrid` is carried
for completeness but never read by the compatibility scorer. -/
structure PersonInput where
  lifePathNumber : ℚ
  expressionNumber : ℚ
  soulUrgeNumber : ℚ
  personalityNumber : ℚ
  birthdayNumber : ℚ
  maturityNumber : ℚ
  loShuGrid : List (List ℕ)
  pinnacles : Fin 4 → ℚ
  challenges : Fin 4 → ℚ
  name : String
  day : ℕ
  month : ℕ
  year : ℕ
deriving DecidableEq

/-- Local constant `scoreLp` of `calculateAdvancedCompatibility` (line 243). -/
def scoreLp (p1 p2 : PersonInput) : ℚ :=
  1 - |p1.lifePathNumber - p2.lifePathNumber| / 8

/-- Local constant `lpBonus` (line 244). -/
def lpBonus (p1 p2 : PersonInput) : ℚ :=
  if p1.lifePathNumber = p2.lifePathNumber then 0.1 else 0

/-- Local constant `finalLpScore` (line 245). -/
def finalLpScore (p1 p2 : PersonInput) : ℚ :=
  scoreLp p1 p2 + lpBonus p1 p2

/-- Local constants `scoreExpr`, `exprBonus`, `finalExprScore` (lines 248-250). -/
def scoreExpr (p1 p2 : PersonInput) : ℚ :=
  1 - |p1.expressionNumber - p2.expressionNumber| / 8

/-- Expression equality bonus (line 249). -/
def exprBonus (p1 p2 : PersonInput) : ℚ :=
  if p1.expressionNumber = p2.expressionNumber then 0.1 else 0

/-- Expression factor (line 250). -/
def finalExprScore (p1 p2 : PersonInput) : ℚ :=
  scoreExpr p1 p2 + exprBonus p1 p2

/-- Soul urge distance score (line 253). -/
def scoreSoul (p1 p2 : PersonInput) : ℚ :=
  1 - |p1.soulUrgeNumber - p2.soulUrgeNumber| / 8

/-- Soul urge equality bonus (line 254). -/
def soulBonus (p1 p2 : PersonInput) : ℚ :=
  if p1.soulUrgeNumber = p2.soulUrgeNumber then 0.1 else 0

/-- Soul urge factor (line 255). -/
def finalSoulScore (p1 p2 : PersonInput) : ℚ :=
  scoreSoul p1 p2 + soulBonus p1 p2

/-- Personality distance score (line 258). -/
def scorePerson (p1 p2 : PersonInput) : ℚ :=
  1 - |p1.personalityNumber - p2.personalityNumber| / 8

/-- Personality equality bonus (line 259). -/
def personBonus (p1 p2 : PersonInput) : ℚ :=
  if p1.personalityNumber = p2.personalityNumber then 0.1 else 0

/-- Personality factor (line 260). -/
def finalPersonScore (p1 p2 : PersonInput) : ℚ :=
  scorePerson p1 p2 + personBonus p1 p2

/-- Birthday factor (line 263); no equality bonus. -/
def scoreBday (p1 p2 : PersonInput) : ℚ :=
  1 - |p1.birthdayNumber - p2.birthdayNumber| / 8

/-- Hidden passion factor (lines 266-268). -/
def scoreHidden (p1 p2 : PersonInput) : ℚ :=
  let hidden1 := getHiddenPassionNumber p1.name
  let hidden2 := getHiddenPassionNumber p2.name
  if hidden1 = hidden2 then 1 else 1 - |(hidden1 : ℚ) - (hidden2 : ℚ)| / 8

/-- Lo Shu digit pool of one person (lines 271-272). -/
def loShuSet (p : PersonInput) : Finset ℕ :=
  getLoShuGridDigits p.day p.month p.year

/-- Local constant `matchingDigits` (line 275). -/
def matchingDigits (p1 p2 : PersonInput) : ℕ :=
  (loShuSet p1 ∩ loShuSet p2).card

/-- Local constant `completionBonus` (line 276): each person owns a digit
the other lacks. -/
def completionBonus (p1 p2 : PersonInput) : ℚ :=
  if (∃ d ∈ loShuSet p1, d ∉ loShuSet p2) ∧ (∃ d ∈ loShuSet p2, d ∉ loShuSet p1)
  then 0.05 else 0

/-- Local constant `scoreLo` (line 277). -/
def scoreLo (p1 p2 : PersonInput) : ℚ :=
  (matchingDigits p1 p2 : ℚ) / 9 + completionBonus p1 p2

/-- Accumulated `pinnacleBonus` (lines 280-290): 0.025 per equal pinnacle
position. -/
def pinnacleBonus (p1 p2 : PersonInput) : ℚ :=
  ∑ i : Fin 4, if p1.pinnacles i = p2.pinnacles i then (0.025 : ℚ) else 0

/-- Accumulated `challengePenalty` (lines 280-290): 0.0125 per equal
challenge position. -/
def challengePenalty (p1 p2 : PersonInput) : ℚ :=
  ∑ i : Fin 4, if p1.challenges i = p2.challenges i then (0.0125 : ℚ) else 0

/-- The weighted sum inside `Math.max(0, Math.min(1, ...))` (lines 293-303). -/
def weightedSum (p1 p2 : PersonInput) : ℚ :=
  0.25 * finalLpScore p1 p2 +
  0.15 * finalExprScore p1 p2 +
  0.15 * finalSoulScore p1 p2 +
  0.15 * finalPersonScore p1 p2 +
  0.10 * scoreBday p1 p2 +
  0.10 * scoreHidden p1 p2 +
  0.05 * scoreLo p1 p2 +
  pinnacleBonus p1 p2 -
  challengePenalty p1 p2

/-- Local constant `finalScore` (lines 293-303). -/
def finalScore (p1 p2 : PersonInput) : ℚ :=
  max 0 (min 1 (weightedSum p1 p2))

/-- JS `Math.round`: round half toward positive infinity. -/
def jround (q : ℚ) : ℤ := ⌊q + 0.5⌋

/-- Local constant `percentage` (line 305): `Math.round(finalScore * 100)`. -/
def percentage (p1 p2 : PersonInput) : ℤ :=
  jround (finalScore p1 p2 * 100)

/-- Category selection (lines 308-312), with the exact strings of the
source file. -/
def category (p1 p2 : PersonInput) : String :=
  if 80 ≤ percentage p1 p2 then "Excellent Match â¤ï¸"
  else if 65 ≤ percentage p1 p2 then "Good Match ðŸ’•"
  else if 50 ≤ percentage p1 p2 then "Average Match ðŸ¤"
  else "Challenging âš ï¸"

/-- Result of the compatibility scorer: the numeric score and;
the category string.  The narrative fields (`summary`, `details`) are pure
text dependent on the values above; no claim concerns them and they are not
modelled. -/
structure AdvancedCompatibilityResult where
  score : ℤ
  category : String
deriving DecidableEq

/-- Embedding of `calculateAdvancedCompatibility` (lines 238-329), restricted
to the `score` and `category` fields of its result. -/
def calculateAdvancedCompatibility (p1 p2 : PersonInput) : AdvancedCompatibilityResult :=
  { score := percentage p1 p2, category := category p1 p2 }

end Numerology

namespace Ephemeris

/-- JS truncated integer part: `x - b * trunc(x)` underlies the JS `%`
operator on numbers; truncation is toward zero. -/
def jstrunc (q : ℚ) : ℤ := if 0 ≤ q then ⌊q⌋ else -⌊-q⌋

/-- The JS `%` operator on numbers: remainder with the sign of the
dividend. -/
def jsmodQ (a b : ℚ) : ℚ := a - b * jstrunc (a / b)

/-- Mathematical modulus on `ℚ` (result in `[0, b)` for `b > 0`); this is
the "mod" of the specification text, used to compare against the code's
JS `%`. -/
def mathModQ (a b : ℚ) : ℚ := a - b * ⌊a / b⌋

/-- The 27-entry nakshatra name table (src/unnamed/part_001 lines 442-448). -/
def NAKSHATRAS : List String :=
  ["Ashwini", "Bharani", "Krittika", "Rohini", "Mrigashira", "Ardra",
   "Punarvasu", "Pushya", "Ashlesha", "Magha", "Purva Phalguni", "Uttara Phalguni",
   "Hasta", "Chitra", "Swati", "Vishakha", "Anuradha", "Jyeshtha",
   "Mula", "Purva Ashadha", "Uttara Ashadha", "Shravana", "Dhanishtha", "Shatabhisha",
   "Purva Bhadrapada", "Uttara Bhadrapada", "Revati"]

/-- Integer part of `toJulianDay` (src/unnamed/part_001 lines 496-504), a
function of the parsed Date's calendar fields; `month0` is the 0-based
`date.getMonth()`.  JS `Math.floor` of an integer quotient is `Int.fdiv`. -/
def toJulianDayInt (fullYear month0 dayOfMonth : ℤ) : ℤ :=
  let a := Int.fdiv (14 - (month0 + 1)) 12
  let y := fullYear + 4800 - a
  let m := (month0 + 1) + 12 * a - 3
  dayOfMonth + Int.fdiv (153 * m + 2) 5 + 365 * y +
    Int.fdiv y 4 - Int.fdiv y 100 + Int.fdiv y 400 - 32045

/-- Embedding of `toJulianDay` (lines 496-504): the integer part plus the
fractional time of day. -/
def toJulianDay (fullYear month0 dayOfMonth hours minutes seconds : ℤ) : ℚ :=
  (toJulianDayInt fullYear month0 dayOfMonth : ℚ) +
    ((hours : ℚ) - 12) / 24 + (minutes : ℚ) / 1440 + (seconds : ℚ) / 86400

/-- Julian centuries since J2000: the local `T` of `calculatePlanetLongitude`
and `calculateAyanamsa`. -/
def julianCenturies (julianDay : ℚ) : ℚ := (julianDay - 2451545.0) / 36525.0

/-- Embedding of `calculatePlanetLongitude` (lines 509-532); planet ids:
SUN 0, MOON 1, MERCURY 2, VENUS 3, MARS 4, JUPITER 5, SATURN 6, RAHU 11,
KETU 12 — RAHU and KETU fall through to the `default: return 0` branch. -/
def calculatePlanetLongitude (planet : ℕ) (julianDay : ℚ) : ℚ :=
  let T := julianCenturies julianDay
  match planet with
  | 0 => jsmodQ (280.46646 + 36000.76983 * T + 0.0003032 * T * T) 360
  | 1 => jsmodQ (218.3165 + 481267.8813 * T - 0.0015786 * T * T) 360
  | 2 => jsmodQ (252.25084 + 149472.67411 * T - 0.00000536 * T * T) 360
  | 3 => jsmodQ (181.97973 + 58517.81539 * T + 0.00000165 * T * T) 360
  | 4 => jsmodQ (355.43299 + 19140.30268 * T + 0.00000261 * T * T) 360
  | 5 => jsmodQ (34.35148 + 3034.90567 * T - 0.00008501 * T * T) 360
  | 6 => jsmodQ (50.07571 + 1222.11494 * T + 0.00000021 * T * T) 360
  | _ => 0

/-- Embedding of `calculateAyanamsa` (lines 537-541). -/
def calculateAyanamsa (julianDay : ℚ) : ℚ :=
  23.85 + 0.396 * julianCenturies julianDay

/-- Embedding of `getNakshatraPada` (lines 546-555).  JS indexing with a
negative or too-large index yields `undefined`, and `|| 'Unknown'` then
produces `'Unknown'`. -/
def getNakshatraPada (moonLongitude : ℚ) : String × ℤ :=
  let nakshatraIndex : ℤ := ⌊moonLongitude / 13.333333⌋
  let nakshatraProgress := jsmodQ moonLongitude 13.333333 / 13.333333
  let pada := ⌊nakshatraProgress * 4⌋ + 1
  (if 0 ≤ nakshatraIndex ∧ nakshatraIndex < 27 then
      NAKSHATRAS.getD nakshatraIndex.toNat "Unknown"
    else "Unknown",
   pada)

/-- A planet record of the natal chart (lines 450-457). -/
structure PlanetPosition where
  longitude : ℚ
  sign : ℤ
  degree : ℚ
  nakshatra : String
  pada : ℤ
  retrograde : Bool
deriving DecidableEq

/-- Body of the planet loop of `computeNatalChart` (lines 576-599): the
sidereal position derived from the raw formula longitude and ayanamsa;
nakshatra/pada are computed only for the MOON entry. -/
def mkPlanet (name : String) (id : ℕ) (julianDay : ℚ) : PlanetPosition :=
  let longitude := calculatePlanetLongitude id julianDay
  let ayanamsa := calculateAyanamsa julianDay
  let siderealLongitude := jsmodQ (longitude - ayanamsa + 360) 360
  let sign := ⌊siderealLongitude / 30⌋
  let degree := jsmodQ siderealLongitude 30
  if name = "MOON" then
    let np := getNakshatraPada siderealLongitude
    { longitude := siderealLongitude, sign := sign, degree := degree,
      nakshatra := np.1, pada := np.2, retrograde := false }
  else
    { longitude := siderealLongitude, sign := sign, degree := degree,
      nakshatra := "", pada := 1, retrograde := false }

/-- The natal chart record (lines 459-466), with the planet map spelled out
as one field per planet key. -/
structure NatalChart where
  ascendant : ℤ
  houses : List ℤ
  sun : PlanetPosition
  moon : PlanetPosition
  mercury : PlanetPosition
  venus : PlanetPosition
  mars : PlanetPosition
  jupiter : PlanetPosition
  saturn : PlanetPosition
  rahu : PlanetPosition
  ketu : PlanetPosition
  ayanamsa : ℚ
  julianDay : ℚ
  siderealTime : ℚ
deriving DecidableEq

/-- Embedding of `computeNatalChart` (lines 560-631), as a function of the
parsed birth Date's calendar fields (the string-to-Date parsing itself is
outside the computation core).  The `ketu` entry spreads `rahu` and then
overrides `longitude` and `sign` (lines 601-608); `lat` is accepted but,
as in the source, never read. -/
def computeNatalChart (lat lon : ℚ)
    (fullYear month0 dayOfMonth hours minutes seconds : ℤ) : NatalChart :=
  let julianDay := toJulianDay fullYear month0 dayOfMonth hours minutes seconds
  let ayanamsa := calculateAyanamsa julianDay
  let rahu := mkPlanet "RAHU" 11 julianDay
  let ketu : PlanetPosition :=
    { rahu with
      longitude := jsmodQ (rahu.longitude + 180) 360,
      sign := Int.tmod (rahu.sign + 6) 12 }
  let siderealTime := (julianDay - 2451545.0) * 1.00273790935 + 280.46061837
  let ascendantLongitude := jsmodQ (siderealTime + lon / 15) 360
  let ascendant := ⌊jsmodQ (ascendantLongitude - ayanamsa + 360) 360 / 30⌋
  { ascendant := ascendant,
    houses := (List.range 12).map (fun i => Int.tmod (ascendant + (i : ℤ)) 12),
    sun := mkPlanet "SUN" 0 julianDay,
    moon := mkPlanet "MOON" 1 julianDay,
    mercury := mkPlanet "MERCURY" 2 julianDay,
    venus := mkPlanet "VENUS" 3 julianDay,
    mars := mkPlanet "MARS" 4 julianDay,
    jupiter := mkPlanet "JUPITER" 5 julianDay,
    saturn := mkPlanet "SATURN" 6 julianDay,
    rahu := rahu,
    ketu := ketu,
    ayanamsa := ayanamsa,
    julianDay := julianDay,
    siderealTime := jsmodQ siderealTime 360 }

/-- The planet map of a chart as an association list, in the iteration
order of `Object.entries(PLANETS)` used by `computeVargas`. -/
def planetsList (c : NatalChart) : List (String × PlanetPosition) :=
  [("sun", c.sun), ("moon", c.moon), ("mercury", c.mercury), ("venus", c.venus),
   ("mars", c.mars), ("jupiter", c.jupiter), ("saturn", c.saturn),
   ("rahu", c.rahu), ("ketu", c.ketu)]

/-- D9 sign of one planet (lines 643-645): the code divides the in-sign
longitude by the literal `3.333333`. -/
def d9Sign (p : PlanetPosition) : ℤ :=
  Int.tmod (p.sign * 9 + ⌊jsmodQ p.longitude 30 / 3.333333⌋) 12

/-- D10 sign of one planet (lines 648-650). -/
def d10Sign (p : PlanetPosition) : ℤ :=
  Int.tmod (p.sign * 10 + ⌊jsmodQ p.longitude 30 / 3⌋) 12

/-- D12 sign of one planet (lines 653-655). -/
def d12Sign (p : PlanetPosition) : ℤ :=
  Int.tmod (p.sign * 12 + ⌊jsmodQ p.longitude 30 / 2.5⌋) 12

/-- The varga chart record (lines 468-472). -/
structure VargaChart where
  D9 : List (String × ℤ)
  D10 : List (String × ℤ)
  D12 : List (String × ℤ)
deriving DecidableEq

/-- Embedding of `computeVargas` (lines 636-659). -/
def computeVargas (c : NatalChart) : VargaChart :=
  { D9 := (planetsList c).map (fun pp => (pp.1, d9Sign pp.2)),
    D10 := (planetsList c).map (fun pp => (pp.1, d10Sign pp.2)),
    D12 := (planetsList c).map (fun pp => (pp.1, d12Sign pp.2)) }

/-- Varga sign according to the specification sentence: subdivision width
exactly `30 / divisor` and mathematical `mod`. -/
def specVargaSign (p : PlanetPosition) (divisor : ℤ) : ℤ :=
  (p.sign * divisor + ⌊mathModQ p.longitude 30 / (30 / (divisor : ℚ))⌋) % 12

/-- Calendar fields of a JS `Date` (year, 0-based month, day of month). -/
structure SimpleDate where
  year : ℤ
  month : ℤ
  day : ℤ
deriving DecidableEq

/-- The JS `new Date(year, month, day)` constructor: an out-of-range month
is carried into the year.  (The JS constructor would also carry an
out-of-range day into the month; the inputs used here never need that.) -/
def mkJsDate (y m d : ℤ) : SimpleDate :=
  { year := y + Int.fdiv m 12, month := Int.emod m 12, day := d }

/-- Result record of `computeVimshottariDasa` (lines 474-491), restricted to
the fields with date/planet content; the derived `remainingYears` /
`remainingMonths` milliseconds arithmetic is not modelled (no claim reads
them, and they too are functions of the same wall-clock value). -/
structure DasaResult where
  currentMahaPlanet : String
  currentMahaStart : SimpleDate
  currentMahaEnd : SimpleDate
  currentSubPlanet : String
  currentSubStart : SimpleDate
  currentSubEnd : SimpleDate
  sequence : List (String × ℕ)
deriving DecidableEq

/-- The fixed 9-entry Vimshottari table (lines 666-676). -/
def dasaPeriods : List (String × ℕ) :=
  [("Ketu", 7), ("Venus", 20), ("Sun", 6), ("Moon", 10), ("Mars", 7),
   ("Rahu", 18), ("Jupiter", 16), ("Saturn", 19), ("Mercury", 17)]

/-- JS array indexing `xs[i]` with a possibly negative integer index:
`undefined` (here `none`) for any index outside 0..length-1. -/
def jsIndex {α : Type} (xs : List α) (i : ℤ) : Option α :=
  if 0 ≤ i then xs.get? i.toNat else none

/-- Embedding of `computeVimshottariDasa` (lines 664-709).  The source reads
the wall clock (`const now = new Date()`); that read is made explicit as the
`now` argument, so dependence on it is dependence on the call time.  For a
negative nakshatra index (possible for negative `moonLongitude`) the JS
reads `dasaPeriods[negative]`, obtains `undefined`, and the first property
access (`currentDasa.years` / `currentDasa.planet`) throws a TypeError;
that thrown path is `none` here. -/
def computeVimshottariDasa (moonLongitude : ℚ) (now : SimpleDate) : Option DasaResult :=
  let nakshatraIndex : ℤ := ⌊moonLongitude / 13.333333⌋
  let startingDasaIndex : ℤ := Int.tmod nakshatraIndex 9
  match jsIndex dasaPeriods startingDasaIndex,
      jsIndex dasaPeriods (Int.tmod (startingDasaIndex + 1) 9) with
  | some currentDasa, some nextDasa =>
    let currentMahaStart := mkJsDate (now.year - 2) now.month now.day
    let currentMahaEnd :=
      mkJsDate (currentMahaStart.year + (currentDasa.2 : ℤ)) currentMahaStart.month currentMahaStart.day
    let currentSubStart := mkJsDate now.year (now.month - 6) now.day
    let currentSubEnd := mkJsDate currentSubStart.year (currentSubStart.month + 18) currentSubStart.day
    some
      { currentMahaPlanet := currentDasa.1,
        currentMahaStart := currentMahaStart,
        currentMahaEnd := currentMahaEnd,
        currentSubPlanet := nextDasa.1,
        currentSubStart := currentSubStart,
        currentSubEnd := currentSubEnd,
        sequence := dasaPeriods }
  | _, _ => none

end Ephemeris

namespace Numerology

/-- Clamp to the interval [0,1]: the specification's description of
`Math.max(0, Math.min(1, x))`. -/
def clamp01 (q : ℚ) : ℚ := max 0 (min 1 q)

/-- Category as a function of the integer score, per the specification
thresholds (inclusive lower bounds 80 / 65 / 50). -/
def categoryOf (s : ℤ) : String :=
  if 80 ≤ s then "Excellent Match â¤ï¸"
  else if 65 ≤ s then "Good Match ðŸ’•"
  else if 50 ≤ s then "Average Match ðŸ¤"
  else "Challenging âš ï¸"

/-- A concrete person input (all numerology numbers 1) used as a test
vector. -/
def basePerson : PersonInput :=
  { lifePathNumber := 1, expressionNumber := 1, soulUrgeNumber := 1,
    personalityNumber := 1, birthdayNumber := 1, maturityNumber := 1,
    loShuGrid := [], pinnacles := fun _ => 1, challenges := fun _ => 1,
    name := "", day := 1, month := 1, year := 1 }

/-- A person with master life path 33 (life-path distance 32 from
`basePerson`). -/
def masterPerson : PersonInput :=
  { basePerson with lifePathNumber := 33 }

/-- A person whose numbers differ from `basePerson` by at most 8. -/
def nearPerson : PersonInput :=
  { basePerson with lifePathNumber := 5, expressionNumber := 3 }

end Numerology

namespace Ephemeris

/-- A planet position whose in-sign longitude lies in the sliver where the
code's D9 width literal 3.333333 and the exact width 30/9 disagree. -/
def edgePos : PlanetPosition :=
  { longitude := 29.999998, sign := 0, degree := 29.999998,
    nakshatra := "", pada := 1, retrograde := false }

/-- A chart whose planets all sit at `edgePos`. -/
def edgeChart : NatalChart :=
  { ascendant := 0, houses := [],
    sun := edgePos, moon := edgePos, mercury := edgePos, venus := edgePos,
    mars := edgePos, jupiter := edgePos, saturn := edgePos,
    rahu := edgePos, ketu := edgePos,
    ayanamsa := 0, julianDay := 0, siderealTime := 0 }

/-- A generic well-formed planet position used as a witness input. -/
def samplePos : PlanetPosition :=
  { longitude := 5, sign := 0, degree := 5,
    nakshatra := "", pada := 1, retrograde := false }

/-- A planet position with negative sidereal longitude and sign, of the
kind real charts contain (see the Moon record certified by the C10
theorem); on such positions the JS truncated `%` and the specification's
mathematical mod diverge. -/
def negPos : PlanetPosition :=
  { longitude := -20, sign := -1, degree := -20,
    nakshatra := "", pada := 1, retrograde := false }

end Ephemeris

open Numerology Ephemeris

theorem digitsListFuel_zero (f : ℕ) : digitsListFuel f 0 = [] := by
  cases f <;> simp [digitsListFuel]

theorem digitsListFuel_congr :
    ∀ f g n : ℕ, n ≤ f → n ≤ g → digitsListFuel f n = digitsListFuel g n := by
  intro f
  induction f with
  | zero =>
    intro g n hf _
    have hn : n = 0 := by omega
    subst hn
    rw [digitsListFuel_zero, digitsListFuel_zero]
  | succ f ih =>
    intro g n hf hg
    rcases Nat.eq_zero_or_pos n with h0 | hpos
    · subst h0
      rw [digitsListFuel_zero, digitsListFuel_zero]
    · obtain ⟨g', rfl⟩ : ∃ g', g = g' + 1 := ⟨g - 1, by omega⟩
      have hne : n ≠ 0 := by omega
      simp only [digitsListFuel, if_neg hne]
      have hlt : n / 10 < n := Nat.div_lt_self hpos (by norm_num)
      exact congrArg _ (ih g' (n / 10) (by omega) (by omega))

theorem decimalDigits_succ (n : ℕ) (h : n ≠ 0) :
    decimalDigits n = n % 10 :: decimalDigits (n / 10) := by
  obtain ⟨m, rfl⟩ : ∃ m, n = m + 1 := ⟨n - 1, by omega⟩
  show digitsListFuel (m + 1) (m + 1) = _
  simp only [digitsListFuel, if_neg h]
  have hlt : (m + 1) / 10 < m + 1 := Nat.div_lt_self (by omega) (by norm_num)
  exact congrArg _ (digitsListFuel_congr m ((m + 1) / 10) ((m + 1) / 10) (by omega) le_rfl)

theorem digitSum_eq (n : ℕ) (h : n ≠ 0) : digitSum n = n % 10 + digitSum (n / 10) := by
  rw [digitSum, decimalDigits_succ n h, List.sum_cons]
  rfl

theorem digitSum_le (n : ℕ) : digitSum n ≤ n := by
  induction n using Nat.strong_induction_on with
  | _ n ih =>
    rcases eq_or_ne n 0 with rfl | h
    · exact le_rfl
    · rw [digitSum_eq n h]
      have h10 : n / 10 < n := Nat.div_lt_self (by omega) (by norm_num)
      have := ih (n / 10) h10
      omega

theorem digitSum_lt (n : ℕ) (h : 10 ≤ n) : digitSum n < n := by
  rw [digitSum_eq n (by omega)]
  have := digitSum_le (n / 10)
  omega

theorem digitSum_pos : ∀ n : ℕ, 1 ≤ n → 1 ≤ digitSum n := by
  intro n
  induction n using Nat.strong_induction_on with
  | _ n ih =>
    intro h
    rw [digitSum_eq n (by omega)]
    rcases Nat.eq_zero_or_pos (n % 10) with h0 | hp
    · have hd : 1 ≤ n / 10 := by omega
      have := ih (n / 10) (Nat.div_lt_self (by omega) (by norm_num)) hd
      omega
    · omega

theorem reduceLoopFuel_congr :
    ∀ f g num : ℕ, ∀ keep : Bool, num ≤ f → num ≤ g →
      reduceLoopFuel f num keep = reduceLoopFuel g num keep := by
  intro f
  induction f with
  | zero =>
    intro g num keep hf _
    have hn : num = 0 := by omega
    subst hn
    cases g with
    | zero => rfl
    | succ g => simp [reduceLoopFuel]
  | succ f ih =>
    intro g num keep hf hg
    by_cases h9 : 9 < num
    · obtain ⟨g', rfl⟩ : ∃ g', g = g' + 1 := ⟨g - 1, by omega⟩
      simp only [reduceLoopFuel, if_pos h9]
      by_cases hm : (keep : Prop) ∧ (digitSum num = 11 ∨ digitSum num = 22 ∨ digitSum num = 33)
      · rw [if_pos hm, if_pos hm]
      · rw [if_neg hm, if_neg hm]
        have hlt : digitSum num < num := digitSum_lt num (by omega)
        exact ih g' (digitSum num) keep (by omega) (by omega)
    · cases g with
      | zero =>
        have hn : num = 0 := by omega
        subst hn
        simp [reduceLoopFuel]
      | succ g => simp [reduceLoopFuel, if_neg h9]

theorem reduceLoopFuel_range :
    ∀ f num : ℕ, ∀ keep : Bool, num ≤ f → 1 ≤ num →
      1 ≤ reduceLoopFuel f num keep ∧
        (reduceLoopFuel f num keep ≤ 9 ∨
          (keep = true ∧ (reduceLoopFuel f num keep = 11 ∨
            reduceLoopFuel f num keep = 22 ∨ reduceLoopFuel f num keep = 33))) := by
  intro f
  induction f with
  | zero =>
    intro num keep hf h1
    omega
  | succ f ih =>
    intro num keep hf h1
    by_cases h9 : 9 < num
    · simp only [reduceLoopFuel, if_pos h9]
      by_cases hm : (keep : Prop) ∧ (digitSum num = 11 ∨ digitSum num = 22 ∨ digitSum num = 33)
      · rw [if_pos hm]
        obtain ⟨hk, hd⟩ := hm
        exact ⟨by omega, Or.inr ⟨hk, hd⟩⟩
      · rw [if_neg hm]
        have hlt : digitSum num < num := digitSum_lt num (by omega)
        exact ih (digitSum num) keep (by omega) (digitSum_pos num (by omega))
    · simp only [reduceLoopFuel, if_neg h9]
      exact ⟨h1, Or.inl (by omega)⟩

/-- C2 (amended): for every positive integer, `reduceToSingleDigit`
terminates (it is a total function of its fuel-bounded loop, whose value
strictly decreases) with a value in {1..9, 11, 22, 33} when master numbers
are kept and in {1..9} when they are not; the input 0 — excluded by the
amendment — returns 0. -/
theorem reduceToSingleDigit_range (n : ℕ) (h : 1 ≤ n) :
    (1 ≤ reduceToSingleDigit n true ∧
      (reduceToSingleDigit n true ≤ 9 ∨ reduceToSingleDigit n true = 11 ∨
        reduceToSingleDigit n true = 22 ∨ reduceToSingleDigit n true = 33)) ∧
    (1 ≤ reduceToSingleDigit n false ∧ reduceToSingleDigit n false ≤ 9) := by
  constructor
  · rw [reduceToSingleDigit]
    by_cases hd : n = 11 ∨ n = 22 ∨ n = 33
    · rw [if_pos ⟨rfl, hd⟩]
      exact ⟨by omega, by omega⟩
    · rw [if_neg (by simpa using hd)]
      have hr := reduceLoopFuel_range n n true le_rfl h
      rcases hr with ⟨h1', h2'⟩
      refine ⟨h1', ?_⟩
      rcases h2' with h9 | ⟨_, hm⟩
      · exact Or.inl h9
      · rcases hm with e | e | e
        · exact Or.inr (Or.inl e)
        · exact Or.inr (Or.inr (Or.inl e))
        · exact Or.inr (Or.inr (Or.inr e))
  · rw [reduceToSingleDigit]
    rw [if_neg (by simp)]
    have hr := reduceLoopFuel_range n n false le_rfl h
    rcases hr with ⟨h1', h2'⟩
    rcases h2' with h9 | ⟨hb, _⟩
    · exact ⟨h1', h9⟩
    · exact absurd hb (by simp)

/-- Counterexample to C2 as stated: at the non-negative integer 0,
`reduceToSingleDigit` returns 0 in both modes, and 0 lies neither in
{1..9} nor in {1..9, 11, 22, 33}. -/
theorem reduceToSingleDigit_zero_out_of_range :
    reduceToSingleDigit 0 true = 0 ∧ reduceToSingleDigit 0 false = 0 ∧
    (0 : ℕ) ∉ Finset.Icc 1 9 ∧
    (0 : ℕ) ∉ ({1, 2, 3, 4, 5, 6, 7, 8, 9, 11, 22, 33} : Finset ℕ) := by
  decide

/-- Witness for the amended C2 at the concrete input 12345. -/
theorem reduceToSingleDigit_range_witness :
    1 ≤ reduceToSingleDigit 12345 true ∧ reduceToSingleDigit 12345 false ≤ 9 :=
  ⟨(reduceToSingleDigit_range 12345 (by norm_num)).1.1,
   (reduceToSingleDigit_range 12345 (by norm_num)).2.2⟩

/-- C6: `calculateLifePathNumber` is exactly
reduce(reduce(day) + reduce(month) + reduce(year)) with master numbers kept
at every step, and the worked example 1990-05-15 yields life path 3. -/
theorem calculateLifePathNumber_spec :
    (∀ day month year : ℕ,
      calculateLifePathNumber day month year =
        reduceToSingleDigit
          (reduceToSingleDigit day true + reduceToSingleDigit month true +
            reduceToSingleDigit year true) true) ∧
    calculateLifePathNumber 15 5 1990 = 3 :=
  ⟨fun _ _ _ => rfl, by decide⟩

theorem iteEqQ_comm (a b x : ℚ) : (if a = b then x else 0) = (if b = a then x else 0) := by
  by_cases h : a = b
  · rw [if_pos h, if_pos h.symm]
  · rw [if_neg h, if_neg fun hh => h hh.symm]

theorem finalLpScore_comm (p1 p2 : PersonInput) : finalLpScore p1 p2 = finalLpScore p2 p1 := by
  rw [finalLpScore, finalLpScore, scoreLp, scoreLp, abs_sub_comm, lpBonus, lpBonus,
    iteEqQ_comm]

theorem finalExprScore_comm (p1 p2 : PersonInput) : finalExprScore p1 p2 = finalExprScore p2 p1 := by
  rw [finalExprScore, finalExprScore, scoreExpr, scoreExpr, abs_sub_comm, exprBonus, exprBonus,
    iteEqQ_comm]

theorem finalSoulScore_comm (p1 p2 : PersonInput) : finalSoulScore p1 p2 = finalSoulScore p2 p1 := by
  rw [finalSoulScore, finalSoulScore, scoreSoul, scoreSoul, abs_sub_comm, soulBonus, soulBonus,
    iteEqQ_comm]

theorem finalPersonScore_comm (p1 p2 : PersonInput) : finalPersonScore p1 p2 = finalPersonScore p2 p1 := by
  rw [finalPersonScore, finalPersonScore, scorePerson, scorePerson, abs_sub_comm,
    personBonus, personBonus, iteEqQ_comm]

theorem scoreBday_comm (p1 p2 : PersonInput) : scoreBday p1 p2 = scoreBday p2 p1 := by
  rw [scoreBday, scoreBday, abs_sub_comm]

theorem scoreHidden_comm (p1 p2 : PersonInput) : scoreHidden p1 p2 = scoreHidden p2 p1 := by
  simp only [scoreHidden]
  by_cases h : getHiddenPassionNumber p1.name = getHiddenPassionNumber p2.name
  · rw [if_pos h, if_pos h.symm]
  · rw [if_neg h, if_neg fun hh => h hh.symm, abs_sub_comm]

theorem scoreLo_comm (p1 p2 : PersonInput) : scoreLo p1 p2 = scoreLo p2 p1 := by
  rw [scoreLo, scoreLo, matchingDigits, matchingDigits, Finset.inter_comm,
    completionBonus, completionBonus, if_congr and_comm rfl rfl]

theorem pinnacleBonus_comm (p1 p2 : PersonInput) : pinnacleBonus p1 p2 = pinnacleBonus p2 p1 := by
  rw [pinnacleBonus, pinnacleBonus]
  exact Finset.sum_congr rfl fun i _ => iteEqQ_comm _ _ _

theorem challengePenalty_comm (p1 p2 : PersonInput) :
    challengePenalty p1 p2 = challengePenalty p2 p1 := by
  rw [challengePenalty, challengePenalty]
  exact Finset.sum_congr rfl fun i _ => iteEqQ_comm _ _ _

theorem percentage_comm (p1 p2 : PersonInput) : percentage p1 p2 = percentage p2 p1 := by
  rw [percentage, percentage, finalScore, finalScore, weightedSum, weightedSum,
    finalLpScore_comm, finalExprScore_comm, finalSoulScore_comm, finalPersonScore_comm,
    scoreBday_comm, scoreHidden_comm, scoreLo_comm, pinnacleBonus_comm, challengePenalty_comm]

theorem category_comm (p1 p2 : PersonInput) : category p1 p2 = category p2 p1 := by
  rw [category, category, percentage_comm]

/-- C4: the compatibility score and category are invariant under swapping
the two person inputs (the narrative text fields are exempt and not
modelled). -/
theorem calculateAdvancedCompatibility_symm (p1 p2 : PersonInput) :
    (calculateAdvancedCompatibility p1 p2).score = (calculateAdvancedCompatibility p2 p1).score ∧
    (calculateAdvancedCompatibility p1 p2).category =
      (calculateAdvancedCompatibility p2 p1).category :=
  ⟨percentage_comm p1 p2, category_comm p1 p2⟩

/-- C1: the returned score equals round(100 · clamp to [0,1] of the
weighted factor sum 0.25·LifePath + 0.15·Expression + 0.15·SoulUrge +
0.15·Personality + 0.10·Birthday + 0.10·HiddenPassion + 0.05·LoShu +
pinnacleBonus − challengePenalty), and it is an integer in [0, 100]. -/
theorem calculateAdvancedCompatibility_score_formula (p1 p2 : PersonInput) :
    (calculateAdvancedCompatibility p1 p2).score =
      jround (100 * clamp01 (0.25 * finalLpScore p1 p2 + 0.15 * finalExprScore p1 p2 +
        0.15 * finalSoulScore p1 p2 + 0.15 * finalPersonScore p1 p2 +
        0.10 * scoreBday p1 p2 + 0.10 * scoreHidden p1 p2 + 0.05 * scoreLo p1 p2 +
        pinnacleBonus p1 p2 - challengePenalty p1 p2)) ∧
    0 ≤ (calculateAdvancedCompatibility p1 p2).score ∧
    (calculateAdvancedCompatibility p1 p2).score ≤ 100 := by
  have hclamp0 : (0 : ℚ) ≤ finalScore p1 p2 := le_max_left _ _
  have hclamp1 : finalScore p1 p2 ≤ 1 := max_le (by norm_num) (min_le_left _ _)
  refine ⟨?_, ?_, ?_⟩
  · show percentage p1 p2 = _
    rw [percentage, mul_comm]
    rfl
  · show (0 : ℤ) ≤ percentage p1 p2
    rw [percentage, jround]
    exact Int.le_floor.mpr (by push_cast; linarith)
  · show percentage p1 p2 ≤ (100 : ℤ)
    rw [percentage, jround]
    have h1005 : finalScore p1 p2 * 100 + 0.5 ≤ 100.5 := by linarith
    have hmono := Int.floor_le_floor (α := ℚ) h1005
    have hfl : ⌊(100.5 : ℚ)⌋ = 100 := by
      rw [Int.floor_eq_iff]
      constructor <;> norm_num
    omega

/-- C5: the category is a function of the integer score with inclusive
lower bounds 80 ("Excellent Match"), 65 ("Good Match"), 50 ("Average
Match") and otherwise "Challenging", with the boundary scores mapping as
the specification lists. -/
theorem category_thresholds :
    (∀ p1 p2 : PersonInput,
      (calculateAdvancedCompatibility p1 p2).category =
        categoryOf (calculateAdvancedCompatibility p1 p2).score) ∧
    categoryOf 80 = "Excellent Match â¤ï¸" ∧
    categoryOf 79 = "Good Match ðŸ’•" ∧ categoryOf 65 = "Good Match ðŸ’•" ∧
    categoryOf 64 = "Average Match ðŸ¤" ∧ categoryOf 50 = "Average Match ðŸ¤" ∧
    categoryOf 49 = "Challenging âš ï¸" := by
  refine ⟨fun p1 p2 => rfl, ?_, ?_, ?_, ?_, ?_, ?_⟩ <;> decide

theorem factorFormulaAux (a b : ℚ) (h : |a - b| ≤ 8) :
    0 ≤ 1 - |a - b| / 8 + (if a = b then (0.1 : ℚ) else 0) ∧
    1 - |a - b| / 8 + (if a = b then (0.1 : ℚ) else 0) ≤ 1.1 ∧
    (1 < 1 - |a - b| / 8 + (if a = b then (0.1 : ℚ) else 0) ↔ a = b) := by
  have habs : 0 ≤ |a - b| := abs_nonneg _
  by_cases he : a = b
  · subst he
    simp only [sub_self, abs_zero, if_pos rfl]
    norm_num
  · rw [if_neg he]
    refine ⟨by linarith, by linarith, ?_⟩
    exact ⟨fun hlt => absurd hlt (by linarith), fun hab => absurd hab he⟩

/-- C3 (amended): when the corresponding numbers differ by at most 8, each
of the five per-factor scores equals 1 − |a − b|/8, with an additional +0.1
bonus exactly when the two numbers are equal for every factor except
Birthday; each bonus factor then lies in [0, 1.1] and exceeds 1 precisely
when the numbers are equal, and the Birthday factor lies in [0, 1].
(Without the difference bound the factors can be negative.) -/
theorem factor_formula_and_bounds (p1 p2 : PersonInput)
    (hLp : |p1.lifePathNumber - p2.lifePathNumber| ≤ 8)
    (hEx : |p1.expressionNumber - p2.expressionNumber| ≤ 8)
    (hSo : |p1.soulUrgeNumber - p2.soulUrgeNumber| ≤ 8)
    (hPe : |p1.personalityNumber - p2.personalityNumber| ≤ 8)
    (hBd : |p1.birthdayNumber - p2.birthdayNumber| ≤ 8) :
    (finalLpScore p1 p2 =
        1 - |p1.lifePathNumber - p2.lifePathNumber| / 8 +
          (if p1.lifePathNumber = p2.lifePathNumber then 0.1 else 0) ∧
      0 ≤ finalLpScore p1 p2 ∧ finalLpScore p1 p2 ≤ 1.1 ∧
      (1 < finalLpScore p1 p2 ↔ p1.lifePathNumber = p2.lifePathNumber)) ∧
    (finalExprScore p1 p2 =
        1 - |p1.expressionNumber - p2.expressionNumber| / 8 +
          (if p1.expressionNumber = p2.expressionNumber then 0.1 else 0) ∧
      0 ≤ finalExprScore p1 p2 ∧ finalExprScore p1 p2 ≤ 1.1 ∧
      (1 < finalExprScore p1 p2 ↔ p1.expressionNumber = p2.expressionNumber)) ∧
    (finalSoulScore p1 p2 =
        1 - |p1.soulUrgeNumber - p2.soulUrgeNumber| / 8 +
          (if p1.soulUrgeNumber = p2.soulUrgeNumber then 0.1 else 0) ∧
      0 ≤ finalSoulScore p1 p2 ∧ finalSoulScore p1 p2 ≤ 1.1 ∧
      (1 < finalSoulScore p1 p2 ↔ p1.soulUrgeNumber = p2.soulUrgeNumber)) ∧
    (finalPersonScore p1 p2 =
        1 - |p1.personalityNumber - p2.personalityNumber| / 8 +
          (if p1.personalityNumber = p2.personalityNumber then 0.1 else 0) ∧
      0 ≤ finalPersonScore p1 p2 ∧ finalPersonScore p1 p2 ≤ 1.1 ∧
      (1 < finalPersonScore p1 p2 ↔ p1.personalityNumber = p2.personalityNumber)) ∧
    (scoreBday p1 p2 = 1 - |p1.birthdayNumber - p2.birthdayNumber| / 8 ∧
      0 ≤ scoreBday p1 p2 ∧ scoreBday p1 p2 ≤ 1) := by
  have hB := factorFormulaAux p1.birthdayNumber p2.birthdayNumber hBd
  refine ⟨⟨rfl, (factorFormulaAux _ _ hLp).1, (factorFormulaAux _ _ hLp).2.1,
      (factorFormulaAux _ _ hLp).2.2⟩,
    ⟨rfl, (factorFormulaAux _ _ hEx).1, (factorFormulaAux _ _ hEx).2.1,
      (factorFormulaAux _ _ hEx).2.2⟩,
    ⟨rfl, (factorFormulaAux _ _ hSo).1, (factorFormulaAux _ _ hSo).2.1,
      (factorFormulaAux _ _ hSo).2.2⟩,
    ⟨rfl, (factorFormulaAux _ _ hPe).1, (factorFormulaAux _ _ hPe).2.1,
      (factorFormulaAux _ _ hPe).2.2⟩,
    rfl, ?_, ?_⟩
  · have := abs_nonneg (p1.birthdayNumber - p2.birthdayNumber)
    rw [scoreBday]
    linarith
  · have := abs_nonneg (p1.birthdayNumber - p2.birthdayNumber)
    rw [scoreBday]
    linarith

/-- Counterexample to C3 as stated: with life paths 1 and 33 (distance 32),
the Life Path factor is 1 − 32/8 = −3, outside the claimed range [0, 1]. -/
theorem factor_out_of_range :
    finalLpScore basePerson masterPerson = -3 ∧ ¬(0 ≤ finalLpScore basePerson masterPerson) := by
  have h : finalLpScore basePerson masterPerson = -3 := by
    rw [finalLpScore, scoreLp, lpBonus]
    simp only [basePerson, masterPerson]
    rw [if_neg (by norm_num), abs_sub_comm, abs_of_nonneg (by norm_num)]
    norm_num
  exact ⟨h, by rw [h]; norm_num⟩

/-- Witness for the amended C3 at a concrete pair of person inputs
differing by at most 8 in every number. -/
theorem factor_formula_witness :
    0 ≤ finalLpScore basePerson nearPerson ∧ finalLpScore basePerson nearPerson ≤ 1.1 := by
  have h := factor_formula_and_bounds basePerson nearPerson
    (by simp only [basePerson, nearPerson]; rw [abs_le]; constructor <;> norm_num)
    (by simp only [basePerson, nearPerson]; rw [abs_le]; constructor <;> norm_num)
    (by simp only [basePerson, nearPerson]; rw [abs_le]; constructor <;> norm_num)
    (by simp only [basePerson, nearPerson]; rw [abs_le]; constructor <;> norm_num)
    (by simp only [basePerson, nearPerson]; rw [abs_le]; constructor <;> norm_num)
  exact ⟨h.1.2.1, h.1.2.2.1⟩

theorem floor_eval {q : ℚ} {k : ℤ} (h1 : (k : ℚ) ≤ q) (h2 : q < k + 1) : ⌊q⌋ = k :=
  Int.floor_eq_iff.mpr ⟨h1, h2⟩

theorem jstrunc_eq_of_nonneg {q : ℚ} {k : ℤ} (hk : 0 ≤ k) (h1 : (k : ℚ) ≤ q)
    (h2 : q < k + 1) : jstrunc q = k := by
  have h0 : (0 : ℚ) ≤ q := le_trans (by exact_mod_cast hk) h1
  rw [jstrunc, if_pos h0]
  exact floor_eval h1 h2

theorem jstrunc_eq_of_neg {q : ℚ} {k : ℤ} (hq : q < 0) (h1 : (k : ℚ) - 1 < q)
    (h2 : q ≤ k) : jstrunc q = k := by
  rw [jstrunc, if_neg (not_le.mpr hq)]
  have hfl : ⌊-q⌋ = -k := floor_eval (by push_cast; linarith) (by push_cast; linarith)
  rw [hfl, neg_neg]

theorem jsmodQ_eq_of_nonneg {a b : ℚ} {k : ℤ} (hb : 0 < b) (hk : 0 ≤ k)
    (h1 : b * k ≤ a) (h2 : a < b * ((k : ℚ) + 1)) : jsmodQ a b = a - b * k := by
  have ht : jstrunc (a / b) = k := by
    refine jstrunc_eq_of_nonneg hk ?_ ?_
    · rw [le_div_iff hb]; linarith
    · rw [div_lt_iff hb]; linarith
  rw [jsmodQ, ht]

theorem jsmodQ_eq_of_neg {a b : ℚ} {k : ℤ} (hb : 0 < b) (ha : a < 0)
    (h1 : b * ((k : ℚ) - 1) < a) (h2 : a ≤ b * k) : jsmodQ a b = a - b * k := by
  have hq : a / b < 0 := div_neg_of_neg_of_pos ha hb
  have ht : jstrunc (a / b) = k := by
    refine jstrunc_eq_of_neg hq ?_ ?_
    · rw [lt_div_iff hb]; linarith
    · rw [div_le_iff hb]; linarith
  rw [jsmodQ, ht]

theorem mathModQ_eq {a b : ℚ} {k : ℤ} (hb : 0 < b) (h1 : b * k ≤ a)
    (h2 : a < b * ((k : ℚ) + 1)) : mathModQ a b = a - b * k := by
  have hfl : ⌊a / b⌋ = k := by
    refine floor_eval ?_ ?_
    · rw [le_div_iff hb]; linarith
    · rw [div_lt_iff hb]; linarith
  rw [mathModQ, hfl]

theorem jsmodQ_nonneg_lt {a b : ℚ} (hb : 0 < b) (ha : 0 ≤ a) :
    0 ≤ jsmodQ a b ∧ jsmodQ a b < b := by
  have h0 : 0 ≤ a / b := div_nonneg ha hb.le
  rw [jsmodQ, jstrunc, if_pos h0]
  have hle : (⌊a / b⌋ : ℚ) ≤ a / b := Int.floor_le _
  have hlt : a / b < ⌊a / b⌋ + 1 := Int.lt_floor_add_one _
  have hble : b * (⌊a / b⌋ : ℚ) ≤ b * (a / b) := by
    exact mul_le_mul_of_nonneg_left hle hb.le
  have hblt : b * (a / b) < b * ((⌊a / b⌋ : ℚ) + 1) := by
    exact mul_lt_mul_of_pos_left hlt hb
  have hcancel : b * (a / b) = a := by field_simp
  constructor
  · linarith
  · linarith

theorem jsmodQ_eq_mathModQ {a b : ℚ} (hb : 0 < b) (ha : 0 ≤ a) :
    jsmodQ a b = mathModQ a b := by
  rw [jsmodQ, mathModQ, jstrunc, if_pos (div_nonneg ha hb.le)]

theorem natalChart_ketu_longitude (lat lon : ℚ) (Y M0 D hh mm ss : ℤ) :
    (computeNatalChart lat lon Y M0 D hh mm ss).ketu.longitude =
      jsmodQ ((computeNatalChart lat lon Y M0 D hh mm ss).rahu.longitude + 180) 360 :=
  rfl

theorem natalChart_ketu_sign (lat lon : ℚ) (Y M0 D hh mm ss : ℤ) :
    (computeNatalChart lat lon Y M0 D hh mm ss).ketu.sign =
      Int.tmod ((computeNatalChart lat lon Y M0 D hh mm ss).rahu.sign + 6) 12 :=
  rfl

theorem natalChart_rahu_longitude (lat lon : ℚ) (Y M0 D hh mm ss : ℤ) :
    (computeNatalChart lat lon Y M0 D hh mm ss).rahu.longitude =
      jsmodQ (0 - calculateAyanamsa (toJulianDay Y M0 D hh mm ss) + 360) 360 :=
  rfl

theorem natalChart_rahu_sign (lat lon : ℚ) (Y M0 D hh mm ss : ℤ) :
    (computeNatalChart lat lon Y M0 D hh mm ss).rahu.sign =
      ⌊(computeNatalChart lat lon Y M0 D hh mm ss).rahu.longitude / 30⌋ :=
  rfl

/-- C7: for every chart computed from a birth date whose Julian day lies in
the range of parseable calendar dates (years 0-9999 give Julian days well
inside [10^6, 6·10^6]), the Ketu record satisfies
ketu.longitude = (rahu.longitude + 180) mod 360 with the mathematical mod,
exactly, and ketu.sign = (rahu.sign + 6) mod 12. -/
theorem computeNatalChart_ketu (lat lon : ℚ) (Y M0 D hh mm ss : ℤ)
    (h1 : 1000000 ≤ toJulianDay Y M0 D hh mm ss)
    (h2 : toJulianDay Y M0 D hh mm ss ≤ 6000000) :
    (computeNatalChart lat lon Y M0 D hh mm ss).ketu.longitude =
      mathModQ ((computeNatalChart lat lon Y M0 D hh mm ss).rahu.longitude + 180) 360 ∧
    (computeNatalChart lat lon Y M0 D hh mm ss).ketu.sign =
      ((computeNatalChart lat lon Y M0 D hh mm ss).rahu.sign + 6) % 12 := by
  have hA1 : 8 ≤ calculateAyanamsa (toJulianDay Y M0 D hh mm ss) := by
    rw [calculateAyanamsa, julianCenturies]
    linarith
  have hA2 : calculateAyanamsa (toJulianDay Y M0 D hh mm ss) ≤ 63 := by
    rw [calculateAyanamsa, julianCenturies]
    linarith
  have hrl : (computeNatalChart lat lon Y M0 D hh mm ss).rahu.longitude =
      0 - calculateAyanamsa (toJulianDay Y M0 D hh mm ss) + 360 := by
    rw [natalChart_rahu_longitude,
      jsmodQ_eq_of_nonneg (k := 0) (by norm_num) le_rfl (by push_cast; linarith)
        (by push_cast; linarith)]
    push_cast
    ring
  constructor
  · rw [natalChart_ketu_longitude, hrl,
      jsmodQ_eq_of_nonneg (k := 1) (by norm_num) (by norm_num) (by push_cast; linarith)
        (by push_cast; linarith),
      mathModQ_eq (k := 1) (by norm_num) (by push_cast; linarith) (by push_cast; linarith)]
  · have hrs : 0 ≤ (computeNatalChart lat lon Y M0 D hh mm ss).rahu.sign := by
      rw [natalChart_rahu_sign, hrl]
      exact Int.le_floor.mpr (by push_cast; linarith)
    rw [natalChart_ketu_sign, Int.tmod_eq_emod (by omega) (by norm_num)]

/-- Witness for C7 at the concrete birth datetime 2000-01-01 12:00, whose
Julian day is exactly 2451545. -/
theorem computeNatalChart_ketu_witness :
    (1000000 ≤ toJulianDay 2000 0 1 12 0 0 ∧ toJulianDay 2000 0 1 12 0 0 ≤ 6000000) ∧
    ((computeNatalChart 0 0 2000 0 1 12 0 0).ketu.longitude =
      mathModQ ((computeNatalChart 0 0 2000 0 1 12 0 0).rahu.longitude + 180) 360 ∧
    (computeNatalChart 0 0 2000 0 1 12 0 0).ketu.sign =
      ((computeNatalChart 0 0 2000 0 1 12 0 0).rahu.sign + 6) % 12) := by
  have hint : toJulianDayInt 2000 0 1 = 2451545 := by decide
  have hjd : toJulianDay 2000 0 1 12 0 0 = 2451545 := by
    rw [toJulianDay, hint]
    norm_num
  exact ⟨⟨by rw [hjd]; norm_num, by rw [hjd]; norm_num⟩,
    computeNatalChart_ketu 0 0 2000 0 1 12 0 0 (by rw [hjd]; norm_num) (by rw [hjd]; norm_num)⟩

/-- C8 (amended): for every planet position with nonnegative longitude and
sign, the D10 and D12 varga signs equal the specification formula (their
code widths 3 and 2.5 are exactly 30/10 and 30/12), and the D9 sign equals
the formula as well except that the code's width literal 3.333333 differs
from 30/9, so for in-sign longitudes inside one of the slivers
[3.333333·k, (30/9)·k), k ∈ {1..9}, the code's subdivision index exceeds
the specification's; for planet positions with negative sidereal longitude
— which charts can contain (see the C10 theorem) — the code's JS `%` based
computation diverges from the mathematical-mod formula for all three
divisors: at longitude −20, sign −1, the code's D10 sign is −5 while the
specification formula gives 5. -/
theorem computeVargas_formula :
    (∀ p : PlanetPosition, 0 ≤ p.longitude → 0 ≤ p.sign →
      d10Sign p = specVargaSign p 10 ∧ d12Sign p = specVargaSign p 12 ∧
      (d9Sign p = specVargaSign p 9 ∨
        ∃ k : ℤ, 1 ≤ k ∧ k ≤ 9 ∧ (3.333333 : ℚ) * k ≤ jsmodQ p.longitude 30 ∧
          jsmodQ p.longitude 30 < (30 / 9 : ℚ) * k)) ∧
    (d10Sign negPos = -5 ∧ specVargaSign negPos 10 = 5 ∧
      d10Sign negPos ≠ specVargaSign negPos 10) := by
  constructor
  case right =>
    have hjm : jsmodQ (-20 : ℚ) 30 = -20 := by
      rw [jsmodQ_eq_of_neg (k := 0) (by norm_num) (by norm_num) (by push_cast; norm_num)
        (by push_cast; norm_num)]
      push_cast
      norm_num
    have hmm2 : mathModQ (-20 : ℚ) 30 = 10 := by
      rw [mathModQ_eq (k := -1) (by norm_num) (by push_cast; norm_num)
        (by push_cast; norm_num)]
      push_cast
      norm_num
    have e1 : d10Sign negPos = -5 := by
      rw [d10Sign]
      simp only [negPos]
      rw [hjm, floor_eval (k := -7) (by push_cast; norm_num) (by push_cast; norm_num)]
      decide
    have e2 : specVargaSign negPos 10 = 5 := by
      rw [specVargaSign]
      simp only [negPos]
      rw [hmm2, show (30 / ((10 : ℤ) : ℚ)) = 3 by norm_num,
        floor_eval (k := 3) (by norm_num) (by norm_num)]
      decide
    exact ⟨e1, e2, by rw [e1, e2]; decide⟩
  case left =>
  intro p hlong hsign
  obtain ⟨hx0, hx30⟩ := jsmodQ_nonneg_lt (a := p.longitude) (b := 30) (by norm_num) hlong
  have hme : mathModQ p.longitude 30 = jsmodQ p.longitude 30 :=
    (jsmodQ_eq_mathModQ (by norm_num) hlong).symm
  refine ⟨?_, ?_, ?_⟩
  · rw [d10Sign, specVargaSign, hme, show (30 / ((10 : ℤ) : ℚ)) = 3 by norm_num]
    refine Int.tmod_eq_emod ?_ (by norm_num)
    have : (0 : ℤ) ≤ ⌊jsmodQ p.longitude 30 / 3⌋ := Int.le_floor.mpr (by positivity)
    positivity
  · rw [d12Sign, specVargaSign, hme, show (30 / ((12 : ℤ) : ℚ)) = 2.5 by norm_num]
    refine Int.tmod_eq_emod ?_ (by norm_num)
    have : (0 : ℤ) ≤ ⌊jsmodQ p.longitude 30 / 2.5⌋ := Int.le_floor.mpr (by positivity)
    positivity
  · by_cases heq : ⌊jsmodQ p.longitude 30 / (3.333333 : ℚ)⌋ =
        ⌊jsmodQ p.longitude 30 / (30 / 9 : ℚ)⌋
    · left
      rw [d9Sign, specVargaSign, hme, show (30 / ((9 : ℤ) : ℚ)) = 30 / 9 by norm_num, ← heq]
      refine Int.tmod_eq_emod ?_ (by norm_num)
      have : (0 : ℤ) ≤ ⌊jsmodQ p.longitude 30 / (3.333333 : ℚ)⌋ :=
        Int.le_floor.mpr (by positivity)
      positivity
    · right
      have hdiv : jsmodQ p.longitude 30 / (30 / 9 : ℚ) ≤
          jsmodQ p.longitude 30 / (3.333333 : ℚ) := by
        gcongr
        norm_num
      have hle : ⌊jsmodQ p.longitude 30 / (30 / 9 : ℚ)⌋ ≤
          ⌊jsmodQ p.longitude 30 / (3.333333 : ℚ)⌋ := Int.floor_le_floor hdiv
      have hlt : ⌊jsmodQ p.longitude 30 / (30 / 9 : ℚ)⌋ <
          ⌊jsmodQ p.longitude 30 / (3.333333 : ℚ)⌋ :=
        lt_of_le_of_ne hle fun h => heq h.symm
      have hs0 : (0 : ℤ) ≤ ⌊jsmodQ p.longitude 30 / (30 / 9 : ℚ)⌋ :=
        Int.le_floor.mpr (by positivity)
      have hs8 : ⌊jsmodQ p.longitude 30 / (30 / 9 : ℚ)⌋ ≤ 8 := by
        have h9 : jsmodQ p.longitude 30 / (30 / 9 : ℚ) < 9 := by
          rw [div_lt_iff (by norm_num)]
          linarith
        have := Int.floor_lt.mpr (by push_cast; linarith : jsmodQ p.longitude 30 / (30 / 9 : ℚ) < ((9 : ℤ) : ℚ))
        omega
      refine ⟨⌊jsmodQ p.longitude 30 / (30 / 9 : ℚ)⌋ + 1, by omega, by omega, ?_, ?_⟩
      · have h1 : ⌊jsmodQ p.longitude 30 / (30 / 9 : ℚ)⌋ + 1 ≤
            ⌊jsmodQ p.longitude 30 / (3.333333 : ℚ)⌋ := by omega
        have h2 : ((⌊jsmodQ p.longitude 30 / (30 / 9 : ℚ)⌋ + 1 : ℤ) : ℚ) ≤
            jsmodQ p.longitude 30 / (3.333333 : ℚ) := Int.le_floor.mp h1
        rw [le_div_iff (by norm_num)] at h2
        push_cast at h2 ⊢
        linarith
      · have h3 : jsmodQ p.longitude 30 / (30 / 9 : ℚ) <
            ⌊jsmodQ p.longitude 30 / (30 / 9 : ℚ)⌋ + 1 := Int.lt_floor_add_one _
        rw [div_lt_iff (by norm_num)] at h3
        push_cast
        linarith

/-- Counterexample to C8 as stated: a chart planet at in-sign longitude
29.999998 (sign 0) receives D9 sign 9 from `computeVargas`, while the
specification formula with exact width 30/9 gives 8. -/
theorem computeVargas_d9_mismatch :
    ("moon", d9Sign edgePos) ∈ (computeVargas edgeChart).D9 ∧
    d9Sign edgePos = 9 ∧ specVargaSign edgePos 9 = 8 := by
  have h1 : jsmodQ (29.999998 : ℚ) 30 = 29.999998 := by
    rw [jsmodQ_eq_of_nonneg (k := 0) (by norm_num) le_rfl (by norm_num) (by norm_num)]
    norm_num
  have h4 : mathModQ (29.999998 : ℚ) 30 = 29.999998 := by
    rw [mathModQ_eq (k := 0) (by norm_num) (by norm_num) (by norm_num)]
    norm_num
  refine ⟨?_, ?_, ?_⟩
  · simp [computeVargas, planetsList, edgeChart]
  · rw [d9Sign]
    simp only [edgePos]
    rw [h1, floor_eval (k := 9) (by norm_num) (by norm_num)]
    decide
  · rw [specVargaSign]
    simp only [edgePos]
    rw [h4, show (30 / ((9 : ℤ) : ℚ)) = 30 / 9 by norm_num,
      floor_eval (k := 8) (by norm_num) (by norm_num)]
    decide

/-- Witness for the amended C8 at a concrete position (longitude 5, sign 0). -/
theorem computeVargas_formula_witness :
    d10Sign samplePos = specVargaSign samplePos 10 :=
  (computeVargas_formula.1 samplePos (by norm_num [samplePos]) (by norm_num [samplePos])).1

/-- Counterexample to C9: with identical argument (Moon longitude 100°),
`computeVimshottariDasa` evaluated at wall-clock date 2024-01-01 starts the
current maha period in 2022, but evaluated at 2025-01-01 starts it in 2023;
the two results differ, so the function is not a function of its explicit
argument alone. -/
theorem computeVimshottariDasa_wallclock :
    ((computeVimshottariDasa 100 ⟨2024, 0, 1⟩).map fun r => r.currentMahaStart.year) =
      some 2022 ∧
    ((computeVimshottariDasa 100 ⟨2025, 0, 1⟩).map fun r => r.currentMahaStart.year) =
      some 2023 ∧
    computeVimshottariDasa 100 ⟨2024, 0, 1⟩ ≠ computeVimshottariDasa 100 ⟨2025, 0, 1⟩ := by
  have hidx : ⌊(100 : ℚ) / 13.333333⌋ = 7 := floor_eval (by norm_num) (by norm_num)
  have e1 : ((computeVimshottariDasa 100 ⟨2024, 0, 1⟩).map fun r => r.currentMahaStart.year) =
      some 2022 := by
    simp only [computeVimshottariDasa, hidx]
    decide
  have e2 : ((computeVimshottariDasa 100 ⟨2025, 0, 1⟩).map fun r => r.currentMahaStart.year) =
      some 2023 := by
    simp only [computeVimshottariDasa, hidx]
    decide
  refine ⟨e1, e2, fun h => ?_⟩
  rw [h] at e1
  exact absurd (e2.symm.trans e1) (by decide)

/-- C9 (amended): the parts of `computeVimshottariDasa` that the algorithm
derives from the Moon longitude — whether the call succeeds at all (a
negative nakshatra index makes the JS throw, modelled as `none`), the
selected maha and sub period planets, and the fixed 9-planet sequence —
are independent of the wall-clock value; only the current-period start/end
dates depend on it.  (The other computation functions modelled here are
pure functions of their explicit arguments.) -/
theorem computeVimshottariDasa_planet_time_invariant (moonLongitude : ℚ)
    (t1 t2 : SimpleDate) :
    ((computeVimshottariDasa moonLongitude t1).map fun r =>
      (r.currentMahaPlanet, r.currentSubPlanet, r.sequence)) =
    ((computeVimshottariDasa moonLongitude t2).map fun r =>
      (r.currentMahaPlanet, r.currentSubPlanet, r.sequence)) ∧
    ((computeVimshottariDasa moonLongitude t1).isSome ↔
      (computeVimshottariDasa moonLongitude t2).isSome) := by
  simp only [computeVimshottariDasa]
  rcases jsIndex dasaPeriods (Int.tmod ⌊moonLongitude / 13.333333⌋ 9) with _ | cd
  · exact ⟨rfl, Iff.rfl⟩
  · rcases jsIndex dasaPeriods
      (Int.tmod (Int.tmod ⌊moonLongitude / 13.333333⌋ 9 + 1) 9) with _ | nd
    · exact ⟨rfl, Iff.rfl⟩
    · exact ⟨rfl, Iff.rfl⟩

theorem getNakshatraPada_neg {q : ℚ} (hq : ⌊q / 13.333333⌋ < 0) :
    (getNakshatraPada q).1 = "Unknown" := by
  simp only [getNakshatraPada]
  rw [if_neg]
  intro hc
  omega

theorem natalChart_moon_longitude (lat lon : ℚ) (Y M0 D hh mm ss : ℤ) :
    (computeNatalChart lat lon Y M0 D hh mm ss).moon.longitude =
      jsmodQ (calculatePlanetLongitude 1 (toJulianDay Y M0 D hh mm ss) -
        calculateAyanamsa (toJulianDay Y M0 D hh mm ss) + 360) 360 :=
  rfl

theorem natalChart_moon_sign (lat lon : ℚ) (Y M0 D hh mm ss : ℤ) :
    (computeNatalChart lat lon Y M0 D hh mm ss).moon.sign =
      ⌊(computeNatalChart lat lon Y M0 D hh mm ss).moon.longitude / 30⌋ :=
  rfl

theorem natalChart_moon_nakshatra (lat lon : ℚ) (Y M0 D hh mm ss : ℤ) :
    (computeNatalChart lat lon Y M0 D hh mm ss).moon.nakshatra =
      (getNakshatraPada ((computeNatalChart lat lon Y M0 D hh mm ss).moon.longitude)).1 :=
  rfl

theorem natalChart_moon_pada (lat lon : ℚ) (Y M0 D hh mm ss : ℤ) :
    (computeNatalChart lat lon Y M0 D hh mm ss).moon.pada =
      (getNakshatraPada ((computeNatalChart lat lon Y M0 D hh mm ss).moon.longitude)).2 :=
  rfl

/-- C10: at the valid birth input 1940-01-15, 12:00 (Julian day exactly
2429644), the Moon's raw formula longitude is negative and the JS `%`
keeps it negative, so the chart's Moon record has negative longitude,
sign −1 (not in 0..11), nakshatra "Unknown" (the fallback branch IS
reached) and pada −2 (not in 1..4) — refuting the claimed ranges. -/
theorem computeNatalChart_moon_negative :
    (computeNatalChart 0 0 1940 0 15 12 0 0).moon.longitude < 0 ∧
    (computeNatalChart 0 0 1940 0 15 12 0 0).moon.sign = -1 ∧
    (computeNatalChart 0 0 1940 0 15 12 0 0).moon.nakshatra = "Unknown" ∧
    (computeNatalChart 0 0 1940 0 15 12 0 0).moon.pada = -2 := by
  have hjdI : toJulianDayInt 1940 0 15 = 2429644 := by decide
  have hjd : toJulianDay 1940 0 15 12 0 0 = 2429644 := by
    rw [toJulianDay, hjdI]
    norm_num
  have hT : julianCenturies (2429644 : ℚ) = -21901 / 36525 := by
    rw [julianCenturies]
    norm_num
  have hraw : calculatePlanetLongitude 1 (2429644 : ℚ) =
      -265290793070783477 / 741153125000000 := by
    show jsmodQ (218.3165 + 481267.8813 * julianCenturies (2429644 : ℚ) -
      0.0015786 * julianCenturies (2429644 : ℚ) * julianCenturies (2429644 : ℚ)) 360 = _
    rw [hT, jsmodQ_eq_of_neg (k := -800) (by norm_num) (by norm_num)
      (by push_cast; norm_num) (by push_cast; norm_num)]
    push_cast
    norm_num
  have hay : calculateAyanamsa (2429644 : ℚ) = 143741409 / 6087500 := by
    rw [calculateAyanamsa, hT]
    norm_num
  have hsid : jsmodQ (calculatePlanetLongitude 1 (2429644 : ℚ) -
      calculateAyanamsa (2429644 : ℚ) + 360) 360 =
      -15976184616533477 / 741153125000000 := by
    rw [hraw, hay, jsmodQ_eq_of_neg (k := 0) (by norm_num) (by norm_num)
      (by push_cast; norm_num) (by push_cast; norm_num)]
    push_cast
    norm_num
  refine ⟨?_, ?_, ?_, ?_⟩
  · rw [natalChart_moon_longitude, hjd, hsid]
    norm_num
  · rw [natalChart_moon_sign, natalChart_moon_longitude, hjd, hsid]
    exact floor_eval (by push_cast; norm_num) (by push_cast; norm_num)
  · rw [natalChart_moon_nakshatra, natalChart_moon_longitude, hjd, hsid]
    refine getNakshatraPada_neg ?_
    have hfl : ⌊(-15976184616533477 / 741153125000000 : ℚ) / 13.333333⌋ = -2 :=
      floor_eval (by push_cast; norm_num) (by push_cast; norm_num)
    omega
  · rw [natalChart_moon_pada, natalChart_moon_longitude, hjd, hsid]
    simp only [getNakshatraPada]
    rw [jsmodQ_eq_of_neg (k := -1) (by norm_num) (by norm_num)
      (by push_cast; norm_num) (by push_cast; norm_num)]
    have hfl2 : ⌊(-15976184616533477 / 741153125000000 - 13.333333 * ((-1 : ℤ) : ℚ)) /
        13.333333 * 4⌋ = -3 :=
      floor_eval (by push_cast; norm_num) (by push_cast; norm_num)
    rw [hfl2]
    decide
